import Mathlib

/-!
# Delayed-reward bandit aggregator (ns-3 LoRaWAN bandits module)

Shallow embedding of
* `src/lorawan/model/bandits/adr-bandit-agent.cc` (class `AdrBanditAgent`, the arm selector), and
* `src/lorawan/model/bandits/bandit-delayed-reward-intelligence.cc`
  (class `BanditDelayedRewardIntelligence`, the delayed-reward aggregator),

followed by the properties of the design document that concern them.

Every member function becomes a function from the object's state (and the
arguments) to the new state (and the returned value). C++ `int` values are
integers (`Int`); signed overflow, undefined in C++, is outside the model.
Narrowing to `uint8_t` is an explicit reduction modulo 256.
-/

namespace LoRaWANBandits

/-! ## The arm selector: `AdrBanditAgent` -/

/-- The constant `NUMER_OF_ARMS` of adr-bandit-agent.cc. -/
def NUMER_OF_ARMS : Nat := 6

/-- Modelled from the spec: `AIToolbox::Bandit::Experience` is a class of an external
library, of which the sources only use `record (arm, reward)`: "ingest one reward
observation for an arm". It is kept as the log of the recorded samples, oldest
first; a `double` reward is a rational number. -/
structure Experience where
  samples : List (Nat × Rat)
deriving DecidableEq

/-- The experience `m_experience(NUMER_OF_ARMS)` right after its construction: nothing recorded. -/
def Experience.empty : Experience := { samples := [] }

/-- The call `m_experience.record (arm, reward)`. -/
def Experience.record (e : Experience) (arm : Nat) (reward : Rat) : Experience :=
  { samples := e.samples ++ [(arm, reward)] }

/-- State of an `AdrBanditAgent`. The policy `m_aiPolicy` only reads the experience. -/
structure AdrBanditAgent where
  m_experience : Experience
deriving DecidableEq

/-- Body of the bootstrap loop of the constructor, for one arm `i`. -/
def AdrBanditAgent.bootstrapArm (e : Experience) (i : Nat) : Experience :=
  (e.record i 0).record i 1

/-- The constructor `AdrBanditAgent::AdrBanditAgent ()` (a declaration cannot bear the
name of its own type here, hence `ctor`). -/
def AdrBanditAgent.ctor : AdrBanditAgent :=
  { m_experience := (List.range NUMER_OF_ARMS).foldl AdrBanditAgent.bootstrapArm Experience.empty }

/-- The member function `AdrBanditAgent::GetNumberOfArms ()`. -/
def AdrBanditAgent.GetNumberOfArms (_a : AdrBanditAgent) : Nat := NUMER_OF_ARMS

/-! ## The messages -/

/-- Modelled from the spec: the class `BanditRewardReq` is declared outside the sources;
it is the value `(currentFrame, frameDelta)` handed to its constructor by
`CreateObject<BanditRewardReq> (currentFrame, frameDelta)`. -/
structure BanditRewardReq where
  currentFrame : Nat
  frameDelta : Nat
deriving DecidableEq

/-- Modelled from the spec: the class `BanditRewardAns` is declared outside the sources;
it carries the ordered per-arm statistics, a `std::vector<int>`. -/
structure BanditRewardAns where
  dataRateStatistics : List Int
deriving DecidableEq

/-- The accessor `BanditRewardAns::GetDataRateStatistics ()`. -/
def BanditRewardAns.GetDataRateStatistics (a : BanditRewardAns) : List Int :=
  a.dataRateStatistics

/-! ## The aggregator: `BanditDelayedRewardIntelligence` -/

/-- Modelled from the spec: the class declaration (bandit-delayed-reward-intelligence.h)
is not among the sources. The three frame members hold frame numbers, "drawn from a
bounded counter space (fixed-width, wraps at a power of two)"; their width is declared
in the absent header, so each is kept as the integer that the member functions compute
for it in `int` arithmetic, and a property that depends on the width takes the width as
a parameter (`toFrameCounter`). The table `m_armsAndRewards[arm][col]` (column 0: uses,
column 1: reward statistic) is indexed without any bound check, so it is a function of
the two indices; a cell whose arm index is past the first dimension stands for the
memory behind the table. Which members lie in that memory is decided by the absent
declaration too: no property of another member is drawn from these cells. -/
structure BanditDelayedRewardIntelligence where
  m_adrBanditAgent : AdrBanditAgent
  m_armsAndRewards : Nat → Nat → Int
  m_frmCntMinWithoutStats : Int
  m_frmCntMaxWithoutStats : Int
  m_requestedMaxFrmCntReward : Int
  m_banditNeedsStats : Bool
  m_waitingForStats : Bool

/-- Conversion of an `int` value to `uint8_t`: reduction modulo 2^8. -/
def toUint8 (v : Int) : Nat := (v % 256).toNat

/-- The member function `UpdateUsedArm (armNumber, frameCnt)`. For an arm below
`NUMER_OF_ARMS` the increment is the one of line 66; for a larger index the source
applies it outside the table, which C++ leaves undefined. -/
def UpdateUsedArm (s : BanditDelayedRewardIntelligence) (armNumber : Nat) (frameCnt : Int) :
    BanditDelayedRewardIntelligence :=
  let s1 := { s with
    m_armsAndRewards := fun arm col =>
      if arm = armNumber ∧ col = 0 then s.m_armsAndRewards arm col + 1
      else s.m_armsAndRewards arm col }
  if frameCnt > s1.m_frmCntMaxWithoutStats then
    { s1 with m_frmCntMaxWithoutStats := frameCnt }
  else s1

/-- The member function `GetRewardsMacCommandReq (currentFrame)`. The argument is the
value of a `uint16_t`, a natural number below 2^16; the subtraction is done in `int`
and its result is narrowed to the `uint8_t` local `frameDelta`. -/
def GetRewardsMacCommandReq (s : BanditDelayedRewardIntelligence) (currentFrame : Nat) :
    BanditDelayedRewardIntelligence × BanditRewardReq :=
  let s1 := { s with m_requestedMaxFrmCntReward := (currentFrame : Int) }
  let frameDelta := toUint8 ((currentFrame : Int) - s1.m_frmCntMinWithoutStats)
  let req : BanditRewardReq := { currentFrame := currentFrame, frameDelta := frameDelta }
  let s2 := { s1 with m_waitingForStats := true }
  (s2, req)

/-- Body of the loop over the arms in `UpdateRewardsAns`: the two expression statements
`m_armsAndRewards[i][0];` and `m_armsAndRewards[i][1];` name a cell and drop it. The
derivation `drStatistics[i] / m_armsAndRewards[i][0]` stands in a comment only. -/
def UpdateRewardsAns.armBody (_drStatistics : List Int) (s : BanditDelayedRewardIntelligence)
    (i : Nat) : BanditDelayedRewardIntelligence :=
  let _uses := s.m_armsAndRewards i 0
  let _reward := s.m_armsAndRewards i 1
  s

/-- The member function `UpdateRewardsAns (delayedRewardsAns)`. -/
def UpdateRewardsAns (s : BanditDelayedRewardIntelligence) (delayedRewardsAns : BanditRewardAns) :
    BanditDelayedRewardIntelligence :=
  let drStatistics := delayedRewardsAns.GetDataRateStatistics
  let s1 := (List.range s.m_adrBanditAgent.GetNumberOfArms).foldl
    (UpdateRewardsAns.armBody drStatistics) s
  { s1 with m_frmCntMinWithoutStats := s1.m_requestedMaxFrmCntReward + 1 }

/-- The calls `UpdateReward (arm, reward)` that reach the arm selector while
`UpdateRewardsAns` runs: the samples its experience holds afterwards beyond those it
held before. -/
def updateRewardCalls (s : BanditDelayedRewardIntelligence) (delayedRewardsAns : BanditRewardAns) :
    List (Nat × Rat) :=
  (UpdateRewardsAns s delayedRewardsAns).m_adrBanditAgent.m_experience.samples.drop
    s.m_adrBanditAgent.m_experience.samples.length

/-- An aggregator whose table is all zero, bound to a freshly constructed arm selector,
with the frame window starting at frame 0 and no request issued. -/
def freshAggregator : BanditDelayedRewardIntelligence :=
  { m_adrBanditAgent := AdrBanditAgent.ctor
    m_armsAndRewards := fun _ _ => 0
    m_frmCntMinWithoutStats := 0
    m_frmCntMaxWithoutStats := 0
    m_requestedMaxFrmCntReward := 0
    m_banditNeedsStats := true
    m_waitingForStats := false }

/-- The end-to-end scenario of the design document up to the request: arm 2 used three
times and arm 5 once at frame 10, then a request built at frame 10. -/
def scenarioAwaiting : BanditDelayedRewardIntelligence :=
  (GetRewardsMacCommandReq
    (UpdateUsedArm (UpdateUsedArm (UpdateUsedArm (UpdateUsedArm freshAggregator 2 10) 2 10) 2 10)
      5 10) 10).1

/-- The response of the end-to-end scenario. -/
def scenarioAns : BanditRewardAns := { dataRateStatistics := [0, 0, 9, 0, 0, 4] }

/-! ## Initialisation and the report-needed flag -/

/-- Modelled from the spec: the declaration of `m_armsAndRewards` is in the absent class
declaration; the table has one row of two cells (usage, statistic) per arm, "to match
`armSelector.numberOfArms()`", hence `NUMER_OF_ARMS * 2` cells. `sizeof` of the table
counts bytes: `cellBytes` for each cell. -/
def sizeofArmsAndRewards (cellBytes : Nat) : Nat := NUMER_OF_ARMS * 2 * cellBytes

/-- The value of `sizeof (int)`, 4 bytes on the platforms ns-3 is built for. -/
def SIZEOF_INT : Nat := 4

/-- The call `std::fill (first, first + count, value)` with `first = &m_armsAndRewards[0][0]`:
the cell `[arm][col]` lies `2 * arm + col` cells behind `first`, and the `count` cells
from `first` on receive `value`. -/
def std_fill (t : Nat → Nat → Int) (count : Nat) (value : Int) : Nat → Nat → Int :=
  fun arm col => if 2 * arm + col < count then value else t arm col

/-- The member function `CleanArmsStats ()`: the count handed to `std::fill` is
`sizeof (m_armsAndRewards)`, the division by the size of a cell being commented out.
The cells it writes past the table are memory behind the table, whatever the class
declaration places there. -/
def CleanArmsStats (s : BanditDelayedRewardIntelligence) : BanditDelayedRewardIntelligence :=
  { s with m_armsAndRewards := std_fill s.m_armsAndRewards (sizeofArmsAndRewards SIZEOF_INT) 0 }

/-- The member function `InitBanditAgentAndArms (adrBanditAgent)`. -/
def InitBanditAgentAndArms (s : BanditDelayedRewardIntelligence) (adrBanditAgent : AdrBanditAgent) :
    BanditDelayedRewardIntelligence :=
  let s1 := { s with m_adrBanditAgent := adrBanditAgent }
  let s2 := CleanArmsStats s1
  let s3 := { s2 with m_banditNeedsStats := true }
  { s3 with m_waitingForStats := false }

/-- The `const` member function `isGetRewardsMacCommandReqNeeded ()`; being `const`, it
yields a value and leaves the object as it is. -/
def isGetRewardsMacCommandReqNeeded (s : BanditDelayedRewardIntelligence) : Bool :=
  s.m_banditNeedsStats

/-- The `const` member function `isBanditNeedsStats ()`. -/
def isBanditNeedsStats (s : BanditDelayedRewardIntelligence) : Bool :=
  s.m_banditNeedsStats

/-- The member function `setBanditNeedsStats (mBanditNeedsStats)`. -/
def setBanditNeedsStats (s : BanditDelayedRewardIntelligence) (mBanditNeedsStats : Bool) :
    BanditDelayedRewardIntelligence :=
  { s with m_banditNeedsStats := mBanditNeedsStats }

/-! ## Sequences of operations -/

/-- One call of a mutating operation of the aggregator, with its arguments. -/
inductive Op where
  | recordUse (armNumber : Nat) (frameCnt : Int)
  | buildRewardRequest (currentFrame : Nat)
  | consumeRewardResponse (delayedRewardsAns : BanditRewardAns)
  | setReportNeeded (mBanditNeedsStats : Bool)
deriving DecidableEq

/-- The state after one operation. -/
def step (s : BanditDelayedRewardIntelligence) : Op → BanditDelayedRewardIntelligence
  | Op.recordUse armNumber frameCnt => UpdateUsedArm s armNumber frameCnt
  | Op.buildRewardRequest currentFrame => (GetRewardsMacCommandReq s currentFrame).1
  | Op.consumeRewardResponse delayedRewardsAns => UpdateRewardsAns s delayedRewardsAns
  | Op.setReportNeeded mBanditNeedsStats => setBanditNeedsStats s mBanditNeedsStats

/-- The state after a finite sequence of operations, first operation first. -/
def run (s : BanditDelayedRewardIntelligence) (ops : List Op) : BanditDelayedRewardIntelligence :=
  ops.foldl step s

/-- An operation the surrounding logic may issue: the arm is one of the `NUMER_OF_ARMS`
arms, the current frame fits the `uint16_t` argument, the response has one statistic
per arm. -/
def Op.wellFormed : Op → Bool
  | Op.recordUse armNumber _ => decide (armNumber < NUMER_OF_ARMS)
  | Op.buildRewardRequest currentFrame => decide (currentFrame < 65536)
  | Op.consumeRewardResponse delayedRewardsAns =>
      decide (delayedRewardsAns.GetDataRateStatistics.length = NUMER_OF_ARMS)
  | Op.setReportNeeded _ => true

/-- Whether a request is outstanding after the operations `ops`, given whether one was
outstanding before them: a request has been built and no response has been consumed
after it. -/
def outstanding (before : Bool) (ops : List Op) : Bool :=
  ops.foldl (fun o op =>
    match op with
    | Op.buildRewardRequest _ => true
    | Op.consumeRewardResponse _ => false
    | _ => o) before

/-- The samples the experience holds for arm `i`, oldest first. -/
def Experience.samplesOf (e : Experience) (i : Nat) : List Rat :=
  (e.samples.filter (fun p => p.1 == i)).map (fun p => p.2)

/-- The state in which the end-to-end scenario starts: `InitBanditAgentAndArms` on an
aggregator whose members are all zero. -/
def initialised : BanditDelayedRewardIntelligence :=
  InitBanditAgentAndArms freshAggregator AdrBanditAgent.ctor

/-- Whether the request of `op`, if `op` builds one in state `s`, is for a frame that
is not before the frame preceding the window start `m_frmCntMinWithoutStats`. -/
def Op.notBeforeWindow (s : BanditDelayedRewardIntelligence) : Op → Bool
  | Op.buildRewardRequest currentFrame =>
      decide (s.m_frmCntMinWithoutStats - 1 ≤ (currentFrame : Int))
  | _ => true

/-- Whether every request built along `ops`, run from `s`, is for a frame not before
the frame preceding the window start at the time it is built. -/
def requestsNotBeforeWindow : BanditDelayedRewardIntelligence → List Op → Bool
  | _, [] => true
  | s, op :: ops => op.notBeforeWindow s && requestsNotBeforeWindow (step s op) ops

/-- The operations of the end-to-end scenario of the design document. -/
def scenarioOps : List Op :=
  [Op.recordUse 2 10, Op.recordUse 2 10, Op.recordUse 2 10, Op.recordUse 5 10,
   Op.buildRewardRequest 10, Op.consumeRewardResponse scenarioAns]

/-- The end-to-end scenario followed by a second request, built for the earlier frame
5. -/
def earlierRequestOps : List Op := scenarioOps ++ [Op.buildRewardRequest 5]

/-- The number of cells of the table `m_armsAndRewards`: two for each arm. -/
def cellsOfArmsAndRewards : Nat := NUMER_OF_ARMS * 2

/-- An aggregator in which every cell, of the table and of the memory behind it,
holds 7. -/
def sevensAggregator : BanditDelayedRewardIntelligence :=
  { freshAggregator with m_armsAndRewards := fun _ _ => 7 }

theorem toUint8_cast (v : Int) : ((toUint8 v : Nat) : Int) = v % 256 := by
  unfold toUint8
  exact Int.toNat_of_nonneg (Int.emod_nonneg v (by decide))

theorem toUint8_lt (v : Int) : toUint8 v < 256 := by
  have h := toUint8_cast v
  have h2 : v % 256 < 256 := Int.emod_lt_of_pos v (by decide)
  omega

theorem armBody_foldl (stats : List Int) (l : List Nat) (s : BanditDelayedRewardIntelligence) :
    l.foldl (UpdateRewardsAns.armBody stats) s = s := by
  induction l with
  | nil => rfl
  | cons i l ih => simpa [UpdateRewardsAns.armBody] using ih

theorem UpdateRewardsAns_eq (s : BanditDelayedRewardIntelligence) (ans : BanditRewardAns) :
    UpdateRewardsAns s ans =
      { s with m_frmCntMinWithoutStats := s.m_requestedMaxFrmCntReward + 1 } := by
  simp [UpdateRewardsAns, armBody_foldl]

theorem frameDelta_cast (s : BanditDelayedRewardIntelligence) (currentFrame : Nat) :
    (((GetRewardsMacCommandReq s currentFrame).2.frameDelta : Nat) : Int)
      = ((currentFrame : Int) - s.m_frmCntMinWithoutStats) % 256 := by
  simp only [GetRewardsMacCommandReq]
  exact toUint8_cast _

theorem GetRewardsMacCommandReq_min (s : BanditDelayedRewardIntelligence) (currentFrame : Nat) :
    (GetRewardsMacCommandReq s currentFrame).1.m_frmCntMinWithoutStats
      = s.m_frmCntMinWithoutStats := rfl

/-! ## Building a reward request -/

/-- C1: for every aggregator state and every current frame, the frame delta carried by
the request of `GetRewardsMacCommandReq` is `(currentFrame - m_frmCntMinWithoutStats)`
reduced modulo 256, the range of the 8-bit `frameDelta`: it lies in `[0, 256)`, it equals
`(currentFrame - m_frmCntMinWithoutStats + 256) mod 256`, and when the current frame is
numerically below the window start (by at most 256) it is exactly
`currentFrame - m_frmCntMinWithoutStats + 256`. -/
theorem C1_frameDelta_wraparound (s : BanditDelayedRewardIntelligence) (currentFrame : Nat) :
    (((GetRewardsMacCommandReq s currentFrame).2.frameDelta : Nat) : Int)
        = ((currentFrame : Int) - s.m_frmCntMinWithoutStats) % 256
    ∧ (((GetRewardsMacCommandReq s currentFrame).2.frameDelta : Nat) : Int)
        = ((currentFrame : Int) - s.m_frmCntMinWithoutStats + 256) % 256
    ∧ (GetRewardsMacCommandReq s currentFrame).2.frameDelta < 256
    ∧ ((currentFrame : Int) < s.m_frmCntMinWithoutStats →
        s.m_frmCntMinWithoutStats - 256 ≤ (currentFrame : Int) →
        (((GetRewardsMacCommandReq s currentFrame).2.frameDelta : Nat) : Int)
          = (currentFrame : Int) - s.m_frmCntMinWithoutStats + 256) := by
  have h := frameDelta_cast s currentFrame
  refine ⟨h, ?_, ?_, ?_⟩
  · omega
  · omega
  · intro h1 h2
    omega

/-- Witness of C1: with the window starting at frame 200, a request built at the wrapped
frame 5 carries the delta `5 - 200 + 256 = 61`. -/
theorem C1_frameDelta_wraparound_witness :
    (((GetRewardsMacCommandReq { freshAggregator with m_frmCntMinWithoutStats := 200 } 5).2.frameDelta
        : Nat) : Int) = 61 :=
  (C1_frameDelta_wraparound { freshAggregator with m_frmCntMinWithoutStats := 200 } 5).2.2.2
    (by decide) (by decide)

/-- C2, counterexample: on the fresh aggregator (window start 0) a request built at frame
300 carries the delta 44, which is neither `(300 - 0) mod 2^16` nor the number `300 - 0`
of frames since the window start, although `0 ≤ 300`. -/
theorem C2_counterexample :
    freshAggregator.m_frmCntMinWithoutStats ≤ 300
    ∧ (GetRewardsMacCommandReq freshAggregator 300).2.frameDelta = 44
    ∧ (((GetRewardsMacCommandReq freshAggregator 300).2.frameDelta : Nat) : Int)
        ≠ ((300 : Int) - freshAggregator.m_frmCntMinWithoutStats) % 65536
    ∧ (((GetRewardsMacCommandReq freshAggregator 300).2.frameDelta : Nat) : Int)
        ≠ (300 : Int) - freshAggregator.m_frmCntMinWithoutStats := by
  decide

/-- C2, amended: for every aggregator state and every current frame, the frame delta of
`GetRewardsMacCommandReq` is the low byte of `(currentFrame - m_frmCntMinWithoutStats)
mod 2^16`, that is the difference modulo 256; whenever the window start is at most the
current frame and fewer than 256 frames lie between them, it is exactly
`currentFrame - m_frmCntMinWithoutStats`. -/
theorem C2_frameDelta_low_byte (s : BanditDelayedRewardIntelligence) (currentFrame : Nat) :
    (((GetRewardsMacCommandReq s currentFrame).2.frameDelta : Nat) : Int)
        = (((currentFrame : Int) - s.m_frmCntMinWithoutStats) % 65536) % 256
    ∧ (s.m_frmCntMinWithoutStats ≤ (currentFrame : Int) →
        (currentFrame : Int) - s.m_frmCntMinWithoutStats < 256 →
        (((GetRewardsMacCommandReq s currentFrame).2.frameDelta : Nat) : Int)
          = (currentFrame : Int) - s.m_frmCntMinWithoutStats) := by
  have h := frameDelta_cast s currentFrame
  refine ⟨?_, ?_⟩
  · omega
  · intro h1 h2
    omega

/-- Witness of C2 as amended: with the window starting at frame 11, a request built at
frame 266 carries the delta 255. -/
theorem C2_frameDelta_low_byte_witness :
    (((GetRewardsMacCommandReq { freshAggregator with m_frmCntMinWithoutStats := 11 } 266).2.frameDelta
        : Nat) : Int) = (266 : Int) - 11 :=
  (C2_frameDelta_low_byte { freshAggregator with m_frmCntMinWithoutStats := 11 } 266).2
    (by decide) (by decide)

/-- C3: for every aggregator state and every current frame, after
`GetRewardsMacCommandReq` the member `m_requestedMaxFrmCntReward` is the current frame,
`m_waitingForStats` is true, and the returned request carries the current frame. -/
theorem C3_request_effects (s : BanditDelayedRewardIntelligence) (currentFrame : Nat) :
    (GetRewardsMacCommandReq s currentFrame).1.m_requestedMaxFrmCntReward = (currentFrame : Int)
    ∧ (GetRewardsMacCommandReq s currentFrame).1.m_waitingForStats = true
    ∧ (GetRewardsMacCommandReq s currentFrame).2.currentFrame = currentFrame :=
  ⟨rfl, rfl, rfl⟩

/-- C4: for every aggregator state and every two frames `f1`, `f2`, building a request
at `f1` and then one at `f2`, with no response consumed in between, leaves
`m_frmCntMinWithoutStats` at its value before the first call (after each of the calls),
leaves `m_requestedMaxFrmCntReward = f2`, and the second request's frame delta is
`(f2 - m_frmCntMinWithoutStats) mod 256` for that unchanged window start. -/
theorem C4_retransmission (s : BanditDelayedRewardIntelligence) (f1 f2 : Nat) :
    (GetRewardsMacCommandReq s f1).1.m_frmCntMinWithoutStats = s.m_frmCntMinWithoutStats
    ∧ (GetRewardsMacCommandReq (GetRewardsMacCommandReq s f1).1 f2).1.m_frmCntMinWithoutStats
        = s.m_frmCntMinWithoutStats
    ∧ (GetRewardsMacCommandReq (GetRewardsMacCommandReq s f1).1 f2).1.m_requestedMaxFrmCntReward
        = (f2 : Int)
    ∧ (((GetRewardsMacCommandReq (GetRewardsMacCommandReq s f1).1 f2).2.frameDelta : Nat) : Int)
        = ((f2 : Int) - s.m_frmCntMinWithoutStats) % 256
    ∧ (GetRewardsMacCommandReq (GetRewardsMacCommandReq s f1).1 f2).2
        = (GetRewardsMacCommandReq s f2).2 := by
  refine ⟨rfl, rfl, rfl, ?_, rfl⟩
  rw [frameDelta_cast, GetRewardsMacCommandReq_min]

/-! ## Consuming a reward response -/

theorem UpdateRewardsAns_table (s : BanditDelayedRewardIntelligence) (ans : BanditRewardAns) :
    (UpdateRewardsAns s ans).m_armsAndRewards = s.m_armsAndRewards := by
  rw [UpdateRewardsAns_eq]

/-- C6, counterexample: in the end-to-end scenario the response has one statistic per
arm, arm 2 has been used 3 times and arm 5 once when it arrives, and after
`UpdateRewardsAns` the two use counts are still 3 and 1, not 0. -/
theorem C6_counterexample :
    scenarioAns.GetDataRateStatistics.length = scenarioAwaiting.m_adrBanditAgent.GetNumberOfArms
    ∧ (UpdateRewardsAns scenarioAwaiting scenarioAns).m_armsAndRewards 2 0 = 3
    ∧ (UpdateRewardsAns scenarioAwaiting scenarioAns).m_armsAndRewards 5 0 = 1
    ∧ (UpdateRewardsAns scenarioAwaiting scenarioAns).m_armsAndRewards 2 0 ≠ 0 := by
  rw [UpdateRewardsAns_table]
  decide

/-- C6, amended: for every aggregator state, every response and every arm `i` below
the number of arms, after `UpdateRewardsAns` the use count `m_armsAndRewards[i][0]` has
the value it had before the call; it is 0 afterwards exactly when it was 0 before. -/
theorem C6_usage_kept (s : BanditDelayedRewardIntelligence) (ans : BanditRewardAns) (i : Nat)
    (_hi : i < s.m_adrBanditAgent.GetNumberOfArms) :
    (UpdateRewardsAns s ans).m_armsAndRewards i 0 = s.m_armsAndRewards i 0
    ∧ ((UpdateRewardsAns s ans).m_armsAndRewards i 0 = 0 ↔ s.m_armsAndRewards i 0 = 0) := by
  rw [UpdateRewardsAns_table]
  exact ⟨rfl, Iff.rfl⟩

/-- Witness of C6 as amended: in the end-to-end scenario arm 5, used once, still has the
use count 1 after the response. -/
theorem C6_usage_kept_witness :
    (UpdateRewardsAns scenarioAwaiting scenarioAns).m_armsAndRewards 5 0 = 1 :=
  ((C6_usage_kept scenarioAwaiting scenarioAns 5 (by decide)).1).trans (by decide)

/-- C8, the code at the failing input: in the end-to-end scenario (6 arms, arm 2 used 3
times, arm 5 once, request at frame 10, response `[0,0,9,0,0,4]`) `UpdateRewardsAns`
makes no `UpdateReward` call at all, where the claim has the two calls `(2, 3)` and
`(5, 4)`; the arm selector's experience is what it was before the response. -/
theorem C8_no_reward_forwarded :
    scenarioAwaiting.m_adrBanditAgent.GetNumberOfArms = 6
    ∧ scenarioAns.GetDataRateStatistics.length = 6
    ∧ updateRewardCalls scenarioAwaiting scenarioAns = []
    ∧ updateRewardCalls scenarioAwaiting scenarioAns ≠ [(2, 3), (5, 4)]
    ∧ (UpdateRewardsAns scenarioAwaiting scenarioAns).m_adrBanditAgent
        = scenarioAwaiting.m_adrBanditAgent := by
  have h : updateRewardCalls scenarioAwaiting scenarioAns = [] := by
    simp [updateRewardCalls, UpdateRewardsAns_eq]
  refine ⟨by decide, by decide, h, ?_, ?_⟩
  · rw [h]; decide
  · rw [UpdateRewardsAns_eq]

/-- C9: for every aggregator state, every response and every arm `i` whose use count
`m_armsAndRewards[i][0]` is 0 when the response is consumed, no `UpdateReward (i, r)`
call, whatever the reward `r`, is among the calls `UpdateRewardsAns` makes on the arm
selector; the selector's experience is left as it was, so nothing has been derived
from that count. -/
theorem C9_zero_use_safety (s : BanditDelayedRewardIntelligence) (ans : BanditRewardAns)
    (i : Nat) (h : s.m_armsAndRewards i 0 = 0) :
    (∀ r : Rat, (i, r) ∉ updateRewardCalls s ans)
    ∧ (UpdateRewardsAns s ans).m_adrBanditAgent = s.m_adrBanditAgent
    ∧ (UpdateRewardsAns s ans).m_armsAndRewards i 0 = 0 := by
  refine ⟨?_, ?_, ?_⟩
  · intro r
    simp [updateRewardCalls, UpdateRewardsAns_eq]
  · rw [UpdateRewardsAns_eq]
  · rw [UpdateRewardsAns_eq]; exact h

/-- Witness of C9: in the end-to-end scenario arm 0 has no use, and no call for arm 0 is
made when the response is consumed. -/
theorem C9_zero_use_safety_witness :
    scenarioAwaiting.m_armsAndRewards 0 0 = 0
    ∧ ∀ r : Rat, (0, r) ∉ updateRewardCalls scenarioAwaiting scenarioAns :=
  ⟨by decide, (C9_zero_use_safety scenarioAwaiting scenarioAns 0 (by decide)).1⟩

/-! ## Recording the use of an arm -/

theorem UpdateUsedArm_table (s : BanditDelayedRewardIntelligence) (armNumber : Nat)
    (frameCnt : Int) (arm col : Nat) :
    (UpdateUsedArm s armNumber frameCnt).m_armsAndRewards arm col
      = if arm = armNumber ∧ col = 0 then s.m_armsAndRewards arm col + 1
        else s.m_armsAndRewards arm col := by
  by_cases hgt : frameCnt > s.m_frmCntMaxWithoutStats <;> simp [UpdateUsedArm, hgt]

theorem UpdateUsedArm_foldl_uses (i : Nat) (fs : List Int) :
    ∀ s : BanditDelayedRewardIntelligence,
      (fs.foldl (fun st f => UpdateUsedArm st i f) s).m_armsAndRewards i 0
        = s.m_armsAndRewards i 0 + (fs.length : Int) := by
  induction fs with
  | nil => intro s; simp
  | cons f fs ih =>
    intro s
    simp only [List.foldl_cons, List.length_cons]
    rw [ih, UpdateUsedArm_table]
    simp only [and_self, if_true]
    push_cast
    ring

/-- C10: for every aggregator state, every arm `i` (in particular every arm below
`NUMER_OF_ARMS`) and every frame number `f`, `UpdateUsedArm (i, f)` raises the use
count `m_armsAndRewards[i][0]` by exactly 1 and leaves the use count of every other arm
as it was; hence `n` successive calls for arm `i`, with any frame numbers, raise its
count by exactly `n`. -/
theorem C10_usage_monotonicity (s : BanditDelayedRewardIntelligence) (i : Nat) (f : Int) :
    (UpdateUsedArm s i f).m_armsAndRewards i 0 = s.m_armsAndRewards i 0 + 1
    ∧ (∀ j : Nat, j ≠ i →
        (UpdateUsedArm s i f).m_armsAndRewards j 0 = s.m_armsAndRewards j 0)
    ∧ (∀ fs : List Int,
        (fs.foldl (fun st g => UpdateUsedArm st i g) s).m_armsAndRewards i 0
          = s.m_armsAndRewards i 0 + (fs.length : Int)) := by
  refine ⟨?_, ?_, ?_⟩
  · rw [UpdateUsedArm_table]; simp
  · intro j hj
    rw [UpdateUsedArm_table]; simp [hj]
  · intro fs
    exact UpdateUsedArm_foldl_uses i fs s

/-- Witness of C10: on the fresh aggregator, recording a use of arm 2 at frame 10 leaves
the count of arm 5 at 0, and three uses of arm 2 at frames 10, 7 and 65535 bring its
count to 3. -/
theorem C10_usage_monotonicity_witness :
    (UpdateUsedArm freshAggregator 2 10).m_armsAndRewards 5 0 = 0
    ∧ ([10, 7, 65535].foldl (fun st g => UpdateUsedArm st 2 g) freshAggregator).m_armsAndRewards
        2 0 = 3 :=
  ⟨((C10_usage_monotonicity freshAggregator 2 10).2.1 5 (by decide)).trans (by decide),
   ((C10_usage_monotonicity freshAggregator 2 10).2.2 [10, 7, 65535]).trans (by decide)⟩

theorem UpdateUsedArm_max (s : BanditDelayedRewardIntelligence) (armNumber : Nat)
    (frameCnt : Int) :
    (UpdateUsedArm s armNumber frameCnt).m_frmCntMaxWithoutStats
      = max s.m_frmCntMaxWithoutStats frameCnt := by
  by_cases hgt : frameCnt > s.m_frmCntMaxWithoutStats
  · simp [UpdateUsedArm, hgt]
    omega
  · simp [UpdateUsedArm, hgt]
    omega

/-- C11, counterexample: once frame 65535, the largest value of the 16-bit counter, has
been recorded, recording the wrapped frame 0 leaves `m_frmCntMaxWithoutStats` at 65535;
frame 0 does not become the new maximum. -/
theorem C11_counterexample :
    (UpdateUsedArm freshAggregator 0 65535).m_frmCntMaxWithoutStats = 65535
    ∧ (UpdateUsedArm (UpdateUsedArm freshAggregator 0 65535) 0 0).m_frmCntMaxWithoutStats = 65535
    ∧ (UpdateUsedArm (UpdateUsedArm freshAggregator 0 65535) 0 0).m_frmCntMaxWithoutStats ≠ 0 := by
  decide

/-- C11, amended: for every aggregator state, arm and frame number `f`, after
`UpdateUsedArm (arm, f)` the member `m_frmCntMaxWithoutStats` is the larger of its old
value and `f` in the plain order of the integers: it becomes `f` exactly when `f` is
numerically greater than the old value or equal to it, and it never decreases. -/
theorem C11_max_plain_order (s : BanditDelayedRewardIntelligence) (armNumber : Nat) (f : Int) :
    (UpdateUsedArm s armNumber f).m_frmCntMaxWithoutStats = max s.m_frmCntMaxWithoutStats f
    ∧ ((UpdateUsedArm s armNumber f).m_frmCntMaxWithoutStats = f ↔ s.m_frmCntMaxWithoutStats ≤ f)
    ∧ s.m_frmCntMaxWithoutStats ≤ (UpdateUsedArm s armNumber f).m_frmCntMaxWithoutStats := by
  rw [UpdateUsedArm_max]
  refine ⟨rfl, ?_, ?_⟩
  · constructor
    · intro h; omega
    · intro h; omega
  · omega

/-! ## Initialisation -/

/-- C13, counterexample: in the end-to-end scenario a response with 2 statistics for the
6 arms is consumed all the same: `UpdateRewardsAns` moves the window start from 0 to
11, so the state after the call is not the state before it. -/
theorem C13_counterexample :
    (BanditRewardAns.mk [7, 7]).GetDataRateStatistics.length
      ≠ scenarioAwaiting.m_adrBanditAgent.GetNumberOfArms
    ∧ scenarioAwaiting.m_frmCntMinWithoutStats = 0
    ∧ (UpdateRewardsAns scenarioAwaiting (BanditRewardAns.mk [7, 7])).m_frmCntMinWithoutStats = 11
    ∧ (UpdateRewardsAns scenarioAwaiting (BanditRewardAns.mk [7, 7])).m_frmCntMinWithoutStats
        ≠ scenarioAwaiting.m_frmCntMinWithoutStats := by
  rw [UpdateRewardsAns_eq]
  decide

/-- C13, amended: `UpdateRewardsAns` does not look at the length of the statistics. For
every aggregator state and every response whose length differs from the number of
arms, the call ends like any other call: the window start becomes the pending frame
plus 1, while the table, `m_frmCntMaxWithoutStats`, the pending frame, both flags and
the arm selector are left as they were and no `UpdateReward` call is made. -/
theorem C13_malformed_consumed (s : BanditDelayedRewardIntelligence) (ans : BanditRewardAns)
    (_hlen : ans.GetDataRateStatistics.length ≠ s.m_adrBanditAgent.GetNumberOfArms) :
    (UpdateRewardsAns s ans).m_frmCntMinWithoutStats = s.m_requestedMaxFrmCntReward + 1
    ∧ (UpdateRewardsAns s ans).m_armsAndRewards = s.m_armsAndRewards
    ∧ (UpdateRewardsAns s ans).m_frmCntMaxWithoutStats = s.m_frmCntMaxWithoutStats
    ∧ (UpdateRewardsAns s ans).m_requestedMaxFrmCntReward = s.m_requestedMaxFrmCntReward
    ∧ (UpdateRewardsAns s ans).m_banditNeedsStats = s.m_banditNeedsStats
    ∧ (UpdateRewardsAns s ans).m_waitingForStats = s.m_waitingForStats
    ∧ (UpdateRewardsAns s ans).m_adrBanditAgent = s.m_adrBanditAgent
    ∧ updateRewardCalls s ans = [] := by
  have hc : updateRewardCalls s ans = [] := by
    simp [updateRewardCalls, UpdateRewardsAns_eq]
  rw [UpdateRewardsAns_eq]
  exact ⟨rfl, rfl, rfl, rfl, rfl, rfl, rfl, hc⟩

/-- Witness of C13 as amended: the response with 2 statistics in the end-to-end
scenario. -/
theorem C13_malformed_consumed_witness :
    (UpdateRewardsAns scenarioAwaiting (BanditRewardAns.mk [7, 7])).m_frmCntMinWithoutStats
        = scenarioAwaiting.m_requestedMaxFrmCntReward + 1
    ∧ updateRewardCalls scenarioAwaiting (BanditRewardAns.mk [7, 7]) = [] :=
  ⟨(C13_malformed_consumed scenarioAwaiting (BanditRewardAns.mk [7, 7]) (by decide)).1,
   (C13_malformed_consumed scenarioAwaiting (BanditRewardAns.mk [7, 7]) (by decide)).2.2.2.2.2.2.2⟩

theorem ctor_samples :
    AdrBanditAgent.ctor.m_experience.samples
      = [(0, 0), (0, 1), (1, 0), (1, 1), (2, 0), (2, 1), (3, 0), (3, 1), (4, 0), (4, 1),
         (5, 0), (5, 1)] := by
  decide

/-- C15: right after the construction of an `AdrBanditAgent` the number of arms is 6,
every arm below 6 has received the same two bootstrap samples, 0 then 1, so that any two
arms have the same recorded experience in count and in value, and no index from 6 on
has received a sample. -/
theorem C15_bootstrap_symmetry :
    AdrBanditAgent.ctor.GetNumberOfArms = 6
    ∧ (∀ i : Nat, i < AdrBanditAgent.ctor.GetNumberOfArms →
        AdrBanditAgent.ctor.m_experience.samplesOf i = [0, 1])
    ∧ (∀ i j : Nat, i < AdrBanditAgent.ctor.GetNumberOfArms →
        j < AdrBanditAgent.ctor.GetNumberOfArms →
        AdrBanditAgent.ctor.m_experience.samplesOf i
          = AdrBanditAgent.ctor.m_experience.samplesOf j)
    ∧ (∀ i : Nat, AdrBanditAgent.ctor.GetNumberOfArms ≤ i →
        AdrBanditAgent.ctor.m_experience.samplesOf i = [])
    ∧ AdrBanditAgent.ctor.m_experience.samples.length = 2 * 6 := by
  have hin : ∀ i : Nat, i < 6 → AdrBanditAgent.ctor.m_experience.samplesOf i = [0, 1] := by
    intro i hi
    unfold Experience.samplesOf
    rw [ctor_samples]
    interval_cases i <;> decide
  refine ⟨rfl, hin, ?_, ?_, ?_⟩
  · intro i j hi hj
    rw [hin i hi, hin j hj]
  · intro i hi
    have hi6 : 6 ≤ i := hi
    unfold Experience.samplesOf
    rw [ctor_samples]
    have h0 : (0 == i) = false := by simp; omega
    have h1 : (1 == i) = false := by simp; omega
    have h2 : (2 == i) = false := by simp; omega
    have h3 : (3 == i) = false := by simp; omega
    have h4 : (4 == i) = false := by simp; omega
    have h5 : (5 == i) = false := by simp; omega
    simp [List.filter, h0, h1, h2, h3, h4, h5]
  · rw [ctor_samples]; rfl

/-- Witness of C15: arms 0 and 5 hold the same samples, and index 6 holds none. -/
theorem C15_bootstrap_symmetry_witness :
    AdrBanditAgent.ctor.m_experience.samplesOf 0 = AdrBanditAgent.ctor.m_experience.samplesOf 5
    ∧ AdrBanditAgent.ctor.m_experience.samplesOf 6 = [] :=
  ⟨C15_bootstrap_symmetry.2.2.1 0 5 (by decide) (by decide),
   C15_bootstrap_symmetry.2.2.2.1 6 (by decide)⟩

/-! ## The report-needed flag -/

/-- C16: for every aggregator state and every boolean `b`, `isGetRewardsMacCommandReqNeeded`
and `isBanditNeedsStats` both return the stored `m_banditNeedsStats` (they are `const`:
the state is not theirs to change), and after `setBanditNeedsStats (b)` both return `b`
while the table, the window start and end, the pending frame, `m_waitingForStats` and
the arm selector are as before. -/
theorem C16_report_needed_flag (s : BanditDelayedRewardIntelligence) (b : Bool) :
    isGetRewardsMacCommandReqNeeded s = s.m_banditNeedsStats
    ∧ isBanditNeedsStats s = s.m_banditNeedsStats
    ∧ isGetRewardsMacCommandReqNeeded (setBanditNeedsStats s b) = b
    ∧ isBanditNeedsStats (setBanditNeedsStats s b) = b
    ∧ (setBanditNeedsStats s b).m_armsAndRewards = s.m_armsAndRewards
    ∧ (setBanditNeedsStats s b).m_frmCntMinWithoutStats = s.m_frmCntMinWithoutStats
    ∧ (setBanditNeedsStats s b).m_frmCntMaxWithoutStats = s.m_frmCntMaxWithoutStats
    ∧ (setBanditNeedsStats s b).m_requestedMaxFrmCntReward = s.m_requestedMaxFrmCntReward
    ∧ (setBanditNeedsStats s b).m_waitingForStats = s.m_waitingForStats
    ∧ (setBanditNeedsStats s b).m_adrBanditAgent = s.m_adrBanditAgent :=
  ⟨rfl, rfl, rfl, rfl, rfl, rfl, rfl, rfl, rfl, rfl⟩

/-! ## The frame window along sequences of operations -/

theorem UpdateUsedArm_min (s : BanditDelayedRewardIntelligence) (armNumber : Nat)
    (frameCnt : Int) :
    (UpdateUsedArm s armNumber frameCnt).m_frmCntMinWithoutStats = s.m_frmCntMinWithoutStats := by
  by_cases hgt : frameCnt > s.m_frmCntMaxWithoutStats <;> simp [UpdateUsedArm, hgt]

theorem UpdateUsedArm_requested (s : BanditDelayedRewardIntelligence) (armNumber : Nat)
    (frameCnt : Int) :
    (UpdateUsedArm s armNumber frameCnt).m_requestedMaxFrmCntReward
      = s.m_requestedMaxFrmCntReward := by
  by_cases hgt : frameCnt > s.m_frmCntMaxWithoutStats <;> simp [UpdateUsedArm, hgt]

theorem step_frames (s : BanditDelayedRewardIntelligence) (op : Op) :
    (step s op).m_frmCntMinWithoutStats
        = (match op with
           | Op.consumeRewardResponse _ => s.m_requestedMaxFrmCntReward + 1
           | _ => s.m_frmCntMinWithoutStats)
    ∧ (step s op).m_frmCntMaxWithoutStats
        = (match op with
           | Op.recordUse _ frameCnt => max s.m_frmCntMaxWithoutStats frameCnt
           | _ => s.m_frmCntMaxWithoutStats)
    ∧ (step s op).m_requestedMaxFrmCntReward
        = (match op with
           | Op.buildRewardRequest currentFrame => (currentFrame : Int)
           | _ => s.m_requestedMaxFrmCntReward) := by
  cases op with
  | recordUse armNumber frameCnt =>
    exact ⟨UpdateUsedArm_min s armNumber frameCnt, UpdateUsedArm_max s armNumber frameCnt,
      UpdateUsedArm_requested s armNumber frameCnt⟩
  | buildRewardRequest currentFrame => exact ⟨rfl, rfl, rfl⟩
  | consumeRewardResponse ans =>
    simp only [step]
    rw [UpdateRewardsAns_eq]
    exact ⟨rfl, rfl, rfl⟩
  | setReportNeeded b => exact ⟨rfl, rfl, rfl⟩

theorem run_pending (ops : List Op) :
    ∀ (s : BanditDelayedRewardIntelligence) (o : Bool),
      (o = true → s.m_frmCntMinWithoutStats - 1 ≤ s.m_requestedMaxFrmCntReward) →
      requestsNotBeforeWindow s ops = true →
      outstanding o ops = true →
      (run s ops).m_frmCntMinWithoutStats - 1 ≤ (run s ops).m_requestedMaxFrmCntReward := by
  induction ops with
  | nil => intro s o h _ ho; exact h ho
  | cons op ops ih =>
    intro s o h hreq ho
    simp only [requestsNotBeforeWindow, Bool.and_eq_true] at hreq
    obtain ⟨hop, hrest⟩ := hreq
    have hf := step_frames s op
    cases op with
    | recordUse armNumber frameCnt =>
      refine ih (step s (Op.recordUse armNumber frameCnt)) o ?_ hrest ho
      intro hot
      have := h hot
      simp only at hf
      omega
    | buildRewardRequest currentFrame =>
      refine ih (step s (Op.buildRewardRequest currentFrame)) true ?_ hrest ho
      intro _
      simp only [Op.notBeforeWindow, decide_eq_true_eq] at hop
      simp only at hf
      omega
    | consumeRewardResponse ans =>
      refine ih (step s (Op.consumeRewardResponse ans)) false ?_ hrest ho
      intro hot
      exact absurd hot (by decide)
    | setReportNeeded b =>
      refine ih (step s (Op.setReportNeeded b)) o ?_ hrest ho
      intro hot
      have := h hot
      simp only at hf
      omega

theorem run_scenarioOps_frames :
    (run initialised scenarioOps).m_frmCntMinWithoutStats = 11
    ∧ (run initialised scenarioOps).m_frmCntMaxWithoutStats = 10
    ∧ (run initialised scenarioOps).m_requestedMaxFrmCntReward = 10 := by
  simp only [scenarioOps, run, List.foldl, step]
  rw [UpdateRewardsAns_eq]
  decide

theorem run_append (s : BanditDelayedRewardIntelligence) (ops ops2 : List Op) :
    run s (ops ++ ops2) = run (run s ops) ops2 := by
  simp [run, List.foldl_append]

theorem run_earlierRequestOps_frames :
    (run initialised earlierRequestOps).m_frmCntMinWithoutStats = 11
    ∧ (run initialised earlierRequestOps).m_requestedMaxFrmCntReward = 5 := by
  obtain ⟨h1, _, _⟩ := run_scenarioOps_frames
  rw [earlierRequestOps, run_append]
  exact ⟨h1, rfl⟩

/-- C18, counterexample: after the end-to-end scenario a second request is built for
frame 5; it is outstanding, all operations are well-formed, and the pending frame 5 is
below the window start 11 minus 1. -/
theorem C18_counterexample :
    earlierRequestOps.all Op.wellFormed = true
    ∧ outstanding false earlierRequestOps = true
    ∧ (run initialised earlierRequestOps).m_requestedMaxFrmCntReward = 5
    ∧ (run initialised earlierRequestOps).m_frmCntMinWithoutStats = 11
    ∧ ¬ ((run initialised earlierRequestOps).m_requestedMaxFrmCntReward
          ≥ (run initialised earlierRequestOps).m_frmCntMinWithoutStats - 1) := by
  obtain ⟨h1, h2⟩ := run_earlierRequestOps_frames
  rw [h1, h2]
  decide

/-- C18, amended: in every state reached from an initialised aggregator by any finite
sequence of operations in which every request is built for a frame not before the
frame preceding the window start (`m_frmCntMinWithoutStats - 1 ≤ currentFrame` when it
is built), and after which a request is outstanding, the pending frame is at least the
window start minus 1. -/
theorem C18_pending_invariant (s0 : BanditDelayedRewardIntelligence) (a : AdrBanditAgent)
    (ops : List Op)
    (hops : requestsNotBeforeWindow (InitBanditAgentAndArms s0 a) ops = true)
    (hout : outstanding false ops = true) :
    (run (InitBanditAgentAndArms s0 a) ops).m_requestedMaxFrmCntReward
      ≥ (run (InitBanditAgentAndArms s0 a) ops).m_frmCntMinWithoutStats - 1 :=
  run_pending ops (InitBanditAgentAndArms s0 a) false (fun h => absurd h (by decide)) hops hout

/-- Witness of C18 as amended: after the end-to-end scenario, whose response moved the
window start to 11, a request built for frame 12 and followed by a use of arm 1. -/
theorem C18_pending_invariant_witness :
    (run (InitBanditAgentAndArms freshAggregator AdrBanditAgent.ctor)
        (scenarioOps ++ [Op.buildRewardRequest 12, Op.recordUse 1 12])).m_requestedMaxFrmCntReward
      ≥ (run (InitBanditAgentAndArms freshAggregator AdrBanditAgent.ctor)
          (scenarioOps ++ [Op.buildRewardRequest 12, Op.recordUse 1 12])).m_frmCntMinWithoutStats
        - 1 :=
  C18_pending_invariant freshAggregator AdrBanditAgent.ctor
    (scenarioOps ++ [Op.buildRewardRequest 12, Op.recordUse 1 12]) (by decide) (by decide)

/-- C19, counterexample: in the state reached by the end-to-end scenario followed by a
request for the earlier frame 5, the window start is 11; consuming a response, a single
well-formed operation, brings it down to 6. -/
theorem C19_counterexample :
    earlierRequestOps.all Op.wellFormed = true
    ∧ (run initialised earlierRequestOps).m_frmCntMinWithoutStats = 11
    ∧ (step (run initialised earlierRequestOps)
        (Op.consumeRewardResponse scenarioAns)).m_frmCntMinWithoutStats = 6
    ∧ ¬ ((step (run initialised earlierRequestOps)
          (Op.consumeRewardResponse scenarioAns)).m_frmCntMinWithoutStats
        ≥ (run initialised earlierRequestOps).m_frmCntMinWithoutStats) := by
  obtain ⟨h1, h2⟩ := run_earlierRequestOps_frames
  have h3 := (step_frames (run initialised earlierRequestOps)
    (Op.consumeRewardResponse scenarioAns)).1
  simp only at h3
  rw [h2] at h3
  rw [h3, h1]
  decide

/-- C19, amended: for every aggregator state, `UpdateUsedArm`, `GetRewardsMacCommandReq`
and `setBanditNeedsStats` leave the window start `m_frmCntMinWithoutStats` as it is, and
`UpdateRewardsAns` sets it to the pending frame plus 1, which is at least the old
window start exactly when the pending frame is at least the old window start minus 1;
so from a state with such a pending frame no single operation lowers the window
start. -/
theorem C19_window_start_steps (s : BanditDelayedRewardIntelligence) :
    (∀ (armNumber : Nat) (frameCnt : Int),
        (step s (Op.recordUse armNumber frameCnt)).m_frmCntMinWithoutStats
          = s.m_frmCntMinWithoutStats)
    ∧ (∀ currentFrame : Nat,
        (step s (Op.buildRewardRequest currentFrame)).m_frmCntMinWithoutStats
          = s.m_frmCntMinWithoutStats)
    ∧ (∀ b : Bool,
        (step s (Op.setReportNeeded b)).m_frmCntMinWithoutStats = s.m_frmCntMinWithoutStats)
    ∧ (∀ ans : BanditRewardAns,
        (step s (Op.consumeRewardResponse ans)).m_frmCntMinWithoutStats
          = s.m_requestedMaxFrmCntReward + 1
        ∧ ((step s (Op.consumeRewardResponse ans)).m_frmCntMinWithoutStats
              ≥ s.m_frmCntMinWithoutStats
            ↔ s.m_requestedMaxFrmCntReward ≥ s.m_frmCntMinWithoutStats - 1))
    ∧ (s.m_requestedMaxFrmCntReward ≥ s.m_frmCntMinWithoutStats - 1 →
        ∀ op : Op, (step s op).m_frmCntMinWithoutStats ≥ s.m_frmCntMinWithoutStats) := by
  refine ⟨fun a f => UpdateUsedArm_min s a f, fun _ => rfl, fun _ => rfl, ?_, ?_⟩
  · intro ans
    have h := (step_frames s (Op.consumeRewardResponse ans)).1
    simp only at h
    rw [h]
    refine ⟨rfl, ?_⟩
    constructor <;> intro h' <;> omega
  · intro hp op
    have h := (step_frames s op).1
    cases op with
    | recordUse armNumber frameCnt => simp only at h; omega
    | buildRewardRequest currentFrame => simp only at h; omega
    | consumeRewardResponse ans => simp only at h; omega
    | setReportNeeded b => simp only at h; omega

/-- Witness of C19 as amended: in the end-to-end scenario the request is pending for
frame 10 while the window starts at 0, and consuming the response does not lower the
window start. -/
theorem C19_window_start_steps_witness :
    (step scenarioAwaiting (Op.consumeRewardResponse scenarioAns)).m_frmCntMinWithoutStats
      ≥ scenarioAwaiting.m_frmCntMinWithoutStats :=
  (C19_window_start_steps scenarioAwaiting).2.2.2.2 (by decide)
    (Op.consumeRewardResponse scenarioAns)

/-! ## Frame effects and the extent of the fill -/

theorem UpdateUsedArm_controller (s : BanditDelayedRewardIntelligence) (armNumber : Nat)
    (frameCnt : Int) :
    (UpdateUsedArm s armNumber frameCnt).m_waitingForStats = s.m_waitingForStats
    ∧ (UpdateUsedArm s armNumber frameCnt).m_banditNeedsStats = s.m_banditNeedsStats
    ∧ (UpdateUsedArm s armNumber frameCnt).m_frmCntMinWithoutStats = s.m_frmCntMinWithoutStats
    ∧ (UpdateUsedArm s armNumber frameCnt).m_requestedMaxFrmCntReward
        = s.m_requestedMaxFrmCntReward := by
  by_cases hgt : frameCnt > s.m_frmCntMaxWithoutStats <;> simp [UpdateUsedArm, hgt]

theorem UpdateUsedArm_foldl_controller (armNumber : Nat) (fs : List Int) :
    ∀ s : BanditDelayedRewardIntelligence,
      (fs.foldl (fun st g => UpdateUsedArm st armNumber g) s).m_waitingForStats
          = s.m_waitingForStats
      ∧ (fs.foldl (fun st g => UpdateUsedArm st armNumber g) s).m_banditNeedsStats
          = s.m_banditNeedsStats
      ∧ (fs.foldl (fun st g => UpdateUsedArm st armNumber g) s).m_frmCntMinWithoutStats
          = s.m_frmCntMinWithoutStats
      ∧ (fs.foldl (fun st g => UpdateUsedArm st armNumber g) s).m_requestedMaxFrmCntReward
          = s.m_requestedMaxFrmCntReward := by
  induction fs with
  | nil => intro s; exact ⟨rfl, rfl, rfl, rfl⟩
  | cons f fs ih =>
    intro s
    simp only [List.foldl_cons]
    obtain ⟨h1, h2, h3, h4⟩ := ih (UpdateUsedArm s armNumber f)
    obtain ⟨k1, k2, k3, k4⟩ := UpdateUsedArm_controller s armNumber f
    exact ⟨h1.trans k1, h2.trans k2, h3.trans k3, h4.trans k4⟩

/-- C21: for every aggregator state, every arm below the number of arms and every frame
number, `UpdateUsedArm` leaves `m_waitingForStats`, `m_banditNeedsStats`, the window
start `m_frmCntMinWithoutStats` and the pending frame `m_requestedMaxFrmCntReward` as
they were, and so does any number of successive calls: an aggregator that awaits no
response still awaits none and one that awaits a response still awaits it, while the
use count grows by the number of calls. -/
theorem C21_recordUse_keeps_controller (s : BanditDelayedRewardIntelligence) (armNumber : Nat)
    (frameCnt : Int) (_harm : armNumber < s.m_adrBanditAgent.GetNumberOfArms) :
    (UpdateUsedArm s armNumber frameCnt).m_waitingForStats = s.m_waitingForStats
    ∧ (UpdateUsedArm s armNumber frameCnt).m_banditNeedsStats = s.m_banditNeedsStats
    ∧ (UpdateUsedArm s armNumber frameCnt).m_frmCntMinWithoutStats = s.m_frmCntMinWithoutStats
    ∧ (UpdateUsedArm s armNumber frameCnt).m_requestedMaxFrmCntReward
        = s.m_requestedMaxFrmCntReward
    ∧ (∀ fs : List Int,
        (fs.foldl (fun st g => UpdateUsedArm st armNumber g) s).m_waitingForStats
            = s.m_waitingForStats
        ∧ (fs.foldl (fun st g => UpdateUsedArm st armNumber g) s).m_banditNeedsStats
            = s.m_banditNeedsStats
        ∧ (fs.foldl (fun st g => UpdateUsedArm st armNumber g) s).m_frmCntMinWithoutStats
            = s.m_frmCntMinWithoutStats
        ∧ (fs.foldl (fun st g => UpdateUsedArm st armNumber g) s).m_requestedMaxFrmCntReward
            = s.m_requestedMaxFrmCntReward
        ∧ (fs.foldl (fun st g => UpdateUsedArm st armNumber g) s).m_armsAndRewards armNumber 0
            = s.m_armsAndRewards armNumber 0 + (fs.length : Int)) := by
  obtain ⟨k1, k2, k3, k4⟩ := UpdateUsedArm_controller s armNumber frameCnt
  refine ⟨k1, k2, k3, k4, ?_⟩
  intro fs
  obtain ⟨h1, h2, h3, h4⟩ := UpdateUsedArm_foldl_controller armNumber fs s
  exact ⟨h1, h2, h3, h4, UpdateUsedArm_foldl_uses armNumber fs s⟩

/-- Witness of C21: the aggregator of the end-to-end scenario awaits a response for
frame 10; a use of arm 4 at frame 12 leaves it awaiting, with the pending frame 10 and
the window start 0. -/
theorem C21_recordUse_keeps_controller_witness :
    (UpdateUsedArm scenarioAwaiting 4 12).m_waitingForStats = true
    ∧ (UpdateUsedArm scenarioAwaiting 4 12).m_frmCntMinWithoutStats = 0
    ∧ (UpdateUsedArm scenarioAwaiting 4 12).m_requestedMaxFrmCntReward = 10 :=
  ⟨(C21_recordUse_keeps_controller scenarioAwaiting 4 12 (by decide)).1.trans (by decide),
   (C21_recordUse_keeps_controller scenarioAwaiting 4 12 (by decide)).2.2.1.trans (by decide),
   (C21_recordUse_keeps_controller scenarioAwaiting 4 12 (by decide)).2.2.2.1.trans (by decide)⟩

/-- C22: for every aggregator state and every two responses, whatever their statistics
and their lengths, `UpdateRewardsAns` ends in the same aggregator state, arm selector
included, and makes the same sequence of `UpdateReward` calls on the arm selector. -/
theorem C22_response_content_ignored (s : BanditDelayedRewardIntelligence)
    (r1 r2 : BanditRewardAns) :
    UpdateRewardsAns s r1 = UpdateRewardsAns s r2
    ∧ (UpdateRewardsAns s r1).m_adrBanditAgent = (UpdateRewardsAns s r2).m_adrBanditAgent
    ∧ updateRewardCalls s r1 = updateRewardCalls s r2 := by
  have h : UpdateRewardsAns s r1 = UpdateRewardsAns s r2 := by
    rw [UpdateRewardsAns_eq, UpdateRewardsAns_eq]
  refine ⟨h, by rw [h], ?_⟩
  unfold updateRewardCalls
  rw [h]

/-- C23, the code at the failing input: with cells of 4 bytes `CleanArmsStats` hands
`std::fill` the count 48 for a table of 12 cells; on an aggregator whose memory holds 7
everywhere, the cells `[6][0]` to `[23][1]`, which lie behind the table of the 6 arms,
are set to 0 and the first cell left alone is `[24][0]`. For every cell size the count
is the number of cells times that size, so it equals the number of cells for cells of
one byte only and exceeds it for every wider cell. -/
theorem C23_fill_past_table :
    cellsOfArmsAndRewards = 12
    ∧ sizeofArmsAndRewards SIZEOF_INT = 48
    ∧ sevensAggregator.m_armsAndRewards 6 0 = 7
    ∧ (CleanArmsStats sevensAggregator).m_armsAndRewards 5 1 = 0
    ∧ (CleanArmsStats sevensAggregator).m_armsAndRewards 6 0 = 0
    ∧ (CleanArmsStats sevensAggregator).m_armsAndRewards 23 1 = 0
    ∧ (CleanArmsStats sevensAggregator).m_armsAndRewards 24 0 = 7
    ∧ (∀ cellBytes : Nat,
        sizeofArmsAndRewards cellBytes = cellsOfArmsAndRewards * cellBytes
        ∧ (sizeofArmsAndRewards cellBytes = cellsOfArmsAndRewards ↔ cellBytes = 1)
        ∧ (1 < cellBytes → cellsOfArmsAndRewards < sizeofArmsAndRewards cellBytes)) := by
  refine ⟨by decide, by decide, by decide, by decide, by decide, by decide, by decide, ?_⟩
  intro cellBytes
  have hs : sizeofArmsAndRewards cellBytes = 12 * cellBytes := by
    simp [sizeofArmsAndRewards, NUMER_OF_ARMS]
  have hc : cellsOfArmsAndRewards = 12 := rfl
  rw [hs, hc]
  refine ⟨rfl, ?_, ?_⟩
  · constructor <;> intro h <;> omega
  · intro h; omega

end LoRaWANBandits
